import Mathlib

/-!
Verification of the laraset setup tool (src/index.ts).

The program is a linear orchestration script: parse a repository URL, check that
docker is on the search path, clone the repository unless its directory already
exists, read the PHP version constraint from composer.json, download
composer.phar and run the install, copy .env from .env.example when absent,
check for the artisan entry point, configure .env for SQLite, run key
generation and migrations, and clean up composer.phar.

The embedding models:
  * the six regex line rewrites of the .env file (source lines 168-181) on a
    file represented as its list of lines; a JS replace with an anchored
    multiline pattern and no global flag rewrites exactly the first line whose
    start matches the key;
  * the PHP version normalization (source lines 89-92) on character lists,
    since a JS split with a one-character separator keeps empty fields;
  * Node path.basename with an extension argument (source line 71);
  * the control flow and file effects of main and of its top-level catch
    handler as a function from an ambient world description (which probes
    succeed, which files exist) to an observable result: the process exit
    code, the list of commands issued, and the final state of the files the
    program touches.
-/

namespace Laraset


/-! ## The .env rewrite (source lines 164-183) -/

/-- A line matches the JS pattern `^KEY=` (from `/^KEY=.*$/m`) exactly when the
key string is an initial segment of the line. -/
def matchesKey (k l : String) : Bool := decide (l.data.take k.data.length = k.data)

/-- JS `String.replace` with an anchored single-line pattern and no global flag
rewrites only the first matching line: on the file seen as its list of lines,
replace the first line satisfying `p` by `r`, leaving everything else alone. -/
def replaceFirst (p : String → Bool) (r : String) : List String → List String
  | [] => []
  | l :: ls => if p l then r :: ls else l :: replaceFirst p r ls

/-- One of the six keyed rewrites of STEP 5: replace the first line starting
with `k` by the fixed line `r`. -/
def rfKey (k r : String) : List String → List String := replaceFirst (matchesKey k) r

/-- The .env rewrite of STEP 5 (source lines 168-181): six successive
first-match line replacements, applied in source order. -/
def rewriteEnv (ls : List String) : List String :=
  rfKey "DB_PASSWORD=" "DB_PASSWORD="
    (rfKey "DB_USERNAME=" "DB_USERNAME="
      (rfKey "DB_PORT=" "# DB_PORT="
        (rfKey "DB_HOST=" "# DB_HOST="
          (rfKey "DB_DATABASE=" "DB_DATABASE=/database/database.sqlite"
            (rfKey "DB_CONNECTION=" "DB_CONNECTION=sqlite" ls)))))

/-- Index of the first line satisfying `p`, if any. -/
def firstMatchIdx (p : String → Bool) : List String → Option Nat
  | [] => none
  | l :: ls => if p l then some 0 else (firstMatchIdx p ls).map (· + 1)

/-- Modelled from the spec: the rewrite of one key replaces, in place, the
first line matching the key at line start by the fixed value; when no line
matches, the content is unchanged and in particular no line is inserted. -/
def replaceFirstSpec (p : String → Bool) (r : String) (ls : List String) : List String :=
  match firstMatchIdx p ls with
  | none => ls
  | some i => ls.set i r

/-- Modelled from the spec: the whole six-key rewrite, each key rewritten by
the in-place first-match replacement of `replaceFirstSpec`. -/
def rewriteEnvSpec (ls : List String) : List String :=
  replaceFirstSpec (matchesKey "DB_PASSWORD=") "DB_PASSWORD="
    (replaceFirstSpec (matchesKey "DB_USERNAME=") "DB_USERNAME="
      (replaceFirstSpec (matchesKey "DB_PORT=") "# DB_PORT="
        (replaceFirstSpec (matchesKey "DB_HOST=") "# DB_HOST="
          (replaceFirstSpec (matchesKey "DB_DATABASE=") "DB_DATABASE=/database/database.sqlite"
            (replaceFirstSpec (matchesKey "DB_CONNECTION=") "DB_CONNECTION=sqlite" ls)))))

/-! ## Version detection (source lines 89-92) -/

/-- The JS character class `[^\d.]` deletes everything that is not a decimal
digit or a dot; this predicate keeps exactly the digits and the dot. -/
def isVersionChar (c : Char) : Bool := c.isDigit || c = '.'

/-- JS `split(".")` with the one-character separator: split the character list
at every dot, keeping empty fields. -/
def splitOnDot : List Char → List (List Char)
  | [] => [[]]
  | c :: cs =>
    if c = '.' then [] :: splitOnDot cs
    else
      match splitOnDot cs with
      | [] => [[c]]
      | h :: t => (c :: h) :: t

/-- Source line 90: `requiredPHP ? requiredPHP.replace(/[^\d.]/g, "") : "8.2"`.
A present empty string is falsy in JS and therefore also takes the default. -/
def phpVersion (requiredPHP : Option String) : List Char :=
  match requiredPHP with
  | some s => if s.data = [] then "8.2".data else s.data.filter isVersionChar
  | none => "8.2".data

/-- Source line 91: `phpVersion.split(".").slice(0, 2).join(".")`. -/
def majorVersion (v : List Char) : List Char :=
  List.intercalate ['.'] ((splitOnDot v).take 2)

/-- The image tag the version detector computes from the manifest field. -/
def detectTag (requiredPHP : Option String) : String :=
  String.mk (majorVersion (phpVersion requiredPHP))

/-- Source line 92: the container image name `php:<tag>-cli`. -/
def dockerImage (requiredPHP : Option String) : String :=
  "php:" ++ detectTag requiredPHP ++ "-cli"

/-! ## Working-directory name (source line 71) -/

/-- Node `path.basename` without the extension argument, on character lists:
drop trailing slashes, then keep the run of characters after the last
remaining slash. -/
def basenameCore (l : List Char) : List Char :=
  ((l.reverse.dropWhile (fun c => c = '/')).takeWhile (fun c => !(c = '/'))).reverse

/-- Node strips the extension argument only when it is a proper suffix of the
computed base name: `basename(".git", ".git")` stays `".git"`. -/
def stripExt (base ext : List Char) : List Char :=
  if base ≠ ext ∧ base.drop (base.length - ext.length) = ext then
    base.take (base.length - ext.length)
  else base

/-- Node `path.basename(p, ext)` as used at source line 71. -/
def basename (p ext : String) : String :=
  String.mk (stripExt (basenameCore p.data) ext.data)

/-- Source line 71: `const repoName = path.basename(opts.url, ".git")`. -/
def repoName (url : String) : String := basename url ".git"

/-! ## The orchestration of main (source lines 50-241)

The ambient world is described by which probes succeed and which files exist in
the materialized working directory; the observable result is the process exit
code, the list of commands the program issued, and the final state of the files
it touches. File contents written by external commands that the program never
reads back (the cloned tree, the vendor folder) are not tracked; the fields of
`Env` describe the working directory as the program finds it after the
materialization step. The computed image tag only flows into command strings,
so it does not appear in the control-flow model; it is modelled separately by
`detectTag` above. -/

/-- The commands `main` can issue, plus the one diagnostic directory listing
(`readdirSync`, source line 131), in source order. -/
inductive Cmd
  | whichDocker
  | gitClone
  | curlComposer
  | composerInstall
  | cpEnvExample
  | listRepoDir
  | dockerDebugLs
  | touchDb
  | keyGenerate
  | migrate
  deriving DecidableEq

/-- The ambient world `main` runs against. -/
structure Env where
  /-- the `--url` option; `none` when the flag is missing -/
  url : Option String
  /-- `which docker` succeeds (source line 62) -/
  dockerExists : Bool
  /-- the derived working directory already exists (source line 74) -/
  repoDirExists : Bool
  /-- `git clone` succeeds (source line 76) -/
  cloneOk : Bool
  /-- composer.json exists in the working directory (source line 81) -/
  composerJsonExists : Bool
  /-- `curl` of composer.phar succeeds, creating the file (source line 105) -/
  curlOk : Bool
  /-- `php composer.phar install` succeeds (source line 113) -/
  installOk : Bool
  /-- content of `.env` as lines, `none` when the file is absent (line 117) -/
  envFile : Option (List String)
  /-- content of `.env.example`, copied when `.env` is absent (line 119) -/
  envExample : List String
  /-- `cp .env.example .env` succeeds (source line 119) -/
  cpOk : Bool
  /-- the artisan entry point exists (source line 127) -/
  artisanExists : Bool
  /-- the diagnostic `docker run ... ls -la /app` succeeds (source line 141) -/
  debugLsOk : Bool
  /-- the database directory exists (source line 151) -/
  dbDirExists : Bool
  /-- content of database/database.sqlite, `none` when absent (line 156) -/
  sqliteFile : Option String
  /-- composer.phar already present before the run (catch handler, line 233) -/
  pharExists : Bool
  /-- composer-setup.php present in the working directory (line 236) -/
  setupExists : Bool
  /-- `php artisan key:generate --force` succeeds (source line 189) -/
  keyGenOk : Bool
  /-- `php artisan migrate --force` succeeds (source line 194) -/
  migrateOk : Bool
  deriving DecidableEq

/-- The mutable state threaded through `main`: commands issued so far and the
files of the working directory the program touches. -/
structure St where
  trace : List Cmd
  envFile : Option (List String)
  sqliteFile : Option String
  dbDir : Bool
  phar : Bool
  setup : Bool
  deriving DecidableEq

/-- Observable outcome of a complete process run. -/
structure Res where
  exitCode : Nat
  trace : List Cmd
  envFile : Option (List String)
  sqliteFile : Option String
  phar : Bool
  setup : Bool
  deriving DecidableEq

/-- The top-level failure handler (source lines 224-241): it re-parses the
argument, re-derives the same working directory, deletes composer.phar and
composer-setup.php when present while swallowing every error, and exits 1. -/
def catchRes (s : St) : Res :=
  { exitCode := 1, trace := s.trace, envFile := s.envFile, sqliteFile := s.sqliteFile,
    phar := false, setup := false }

/-- A direct `process.exit(1)` (source lines 58, 67, 83): the process stops at
once and the failure handler never runs, so no file is cleaned up. -/
def exitRes (s : St) : Res :=
  { exitCode := 1, trace := s.trace, envFile := s.envFile, sqliteFile := s.sqliteFile,
    phar := s.phar, setup := s.setup }

/-- STEP 7 (source line 211): `unlinkSync` of composer.phar with no existence
guard; with the file absent the call throws into the failure handler, otherwise
the run finishes with exit code 0. composer-setup.php is not touched here. -/
def stepCleanup (s : St) : Res :=
  if s.phar then
    { exitCode := 0, trace := s.trace, envFile := s.envFile, sqliteFile := s.sqliteFile,
      phar := false, setup := s.setup }
  else catchRes s

/-- STEP 6 (source lines 193-203): the migrate command; its failure is caught
and only warned about, so both outcomes continue into the cleanup step. -/
def stepMigrate (e : Env) (s : St) : Res :=
  if e.migrateOk then stepCleanup { s with trace := s.trace ++ [Cmd.migrate] }
  else stepCleanup { s with trace := s.trace ++ [Cmd.migrate] }

/-- Source lines 138-191: the diagnostic container listing (failure caught and
ignored), creation of the database directory and of an empty database file only
when absent, the `.env` rewrite, the fire-and-forget `touch`, then the key
generation, whose failure is rethrown into the failure handler. `lines` is the
`.env` content read at line 164. -/
def stepConfigure (e : Env) (s : St) (lines : List String) : Res :=
  let s1 : St :=
    if e.debugLsOk then { s with trace := s.trace ++ [Cmd.dockerDebugLs] }
    else { s with trace := s.trace ++ [Cmd.dockerDebugLs] }
  let s2 : St :=
    { s1 with
      dbDir := true
      sqliteFile := some (s1.sqliteFile.getD "")
      envFile := some (rewriteEnv lines)
      trace := s1.trace ++ [Cmd.touchDb, Cmd.keyGenerate] }
  if e.keyGenOk then stepMigrate e s2 else catchRes s2

/-- STEP 4 (source lines 126-136): the artisan existence check; when the file
is absent the directory is listed for diagnostics and an error is thrown into
the failure handler. -/
def stepArtisan (e : Env) (s : St) (lines : List String) : Res :=
  if e.artisanExists then stepConfigure e s lines
  else catchRes { s with trace := s.trace ++ [Cmd.listRepoDir] }

/-- STEP 3 (source lines 116-120): copy `.env.example` to `.env` when `.env`
is absent; a failing copy throws into the failure handler. -/
def stepEnvFile (e : Env) (s : St) : Res :=
  match s.envFile with
  | some lines => stepArtisan e s lines
  | none =>
    if e.cpOk then
      stepArtisan e
        { s with
          trace := s.trace ++ [Cmd.cpEnvExample]
          envFile := some e.envExample }
        e.envExample
    else catchRes { s with trace := s.trace ++ [Cmd.cpEnvExample] }

/-- STEPS 1-2 (source lines 104-113): download composer.phar (on success the
file exists in the working directory), then run the composer install; either
failure throws into the failure handler. -/
def stepComposer (e : Env) (s : St) : Res :=
  if e.curlOk then
    if e.installOk then
      stepEnvFile e
        { s with
          trace := s.trace ++ [Cmd.curlComposer, Cmd.composerInstall]
          phar := true }
    else
      catchRes
        { s with
          trace := s.trace ++ [Cmd.curlComposer, Cmd.composerInstall]
          phar := true }
  else catchRes { s with trace := s.trace ++ [Cmd.curlComposer] }

/-- Source lines 80-84: a missing composer.json is a direct `process.exit(1)`. -/
def stepManifest (e : Env) (s : St) : Res :=
  if e.composerJsonExists then stepComposer e s else exitRes s

/-- Source lines 74-77: skip the clone when the working directory exists; a
failing clone throws into the failure handler. -/
def stepClone (e : Env) (s : St) : Res :=
  if e.repoDirExists then stepManifest e s
  else
    if e.cloneOk then stepManifest e { s with trace := s.trace ++ [Cmd.gitClone] }
    else catchRes { s with trace := s.trace ++ [Cmd.gitClone] }

/-- The whole of `main` plus its catch handler (source lines 50-241) as a
function from the ambient world to the observable result. -/
def run (e : Env) : Res :=
  let s0 : St := { trace := [], envFile := e.envFile, sqliteFile := e.sqliteFile,
                   dbDir := e.dbDirExists, phar := e.pharExists, setup := e.setupExists }
  match e.url with
  | none => exitRes s0
  | some _ =>
    let s1 : St := { s0 with trace := [Cmd.whichDocker] }
    if e.dockerExists then stepClone e s1 else exitRes s1

/-- A concrete successful world: everything in place, every command succeeding
except the migration, and a stray composer-setup.php lying in the directory. -/
def demoEnv : Env :=
  { url := some "https://example.com/demo.git"
    dockerExists := true
    repoDirExists := true
    cloneOk := true
    composerJsonExists := true
    curlOk := true
    installOk := true
    envFile := some ["DB_CONNECTION=mysql"]
    envExample := []
    cpOk := true
    artisanExists := true
    debugLsOk := true
    dbDirExists := true
    sqliteFile := some ""
    pharExists := false
    setupExists := true
    keyGenOk := true
    migrateOk := false }

/-- The same world with the artisan entry point missing. -/
def demoEnvNoArtisan : Env := { demoEnv with artisanExists := false }

/-- The starting state of the working directory, as `run` builds it. -/
def st0 (e : Env) : St :=
  { trace := []
    envFile := e.envFile
    sqliteFile := e.sqliteFile
    dbDir := e.dbDirExists
    phar := e.pharExists
    setup := e.setupExists }

/-- The state right after the docker probe has been issued. -/
def st1 (e : Env) : St := { st0 e with trace := [Cmd.whichDocker] }

/-! ## Lemmas and theorems -/

lemma replaceFirst_eq_spec (p : String → Bool) (r : String) :
    ∀ ls : List String, replaceFirst p r ls = replaceFirstSpec p r ls := by
  intro ls
  induction ls with
  | nil => rfl
  | cons l ls ih =>
    by_cases h : p l
    · simp [replaceFirst, replaceFirstSpec, firstMatchIdx, h]
    · simp only [replaceFirst, replaceFirstSpec, firstMatchIdx, h, if_neg, if_false,
        Bool.false_eq_true] at ih ⊢
      cases hfi : firstMatchIdx p ls with
      | none => simp [hfi] at ih; simp [ih]
      | some i => simp [hfi] at ih; simp [ih, List.set]

lemma length_replaceFirst (p : String → Bool) (r : String) (ls : List String) :
    (replaceFirst p r ls).length = ls.length := by
  rw [replaceFirst_eq_spec]
  unfold replaceFirstSpec
  cases firstMatchIdx p ls <;> simp

/-! ## Idempotence machinery for the rewrite -/

lemma rfKey_comm (k1 r1 k2 r2 : String)
    (h1 : k1.data.take k2.data.length ≠ k2.data)
    (h2 : k2.data.take k1.data.length ≠ k1.data)
    (hr1 : matchesKey k2 r1 = false) (hr2 : matchesKey k1 r2 = false) :
    ∀ ls : List String, rfKey k1 r1 (rfKey k2 r2 ls) = rfKey k2 r2 (rfKey k1 r1 ls) := by
  have disj : ∀ l : String, matchesKey k1 l = true → matchesKey k2 l = true → False := by
    intro l m1 m2
    simp only [matchesKey, decide_eq_true_eq] at m1 m2
    rcases Nat.le_total k1.data.length k2.data.length with hle | hle
    · apply h2
      rw [← m2, List.take_take, Nat.min_eq_left hle, m1]
    · apply h1
      rw [← m1, List.take_take, Nat.min_eq_left hle, m2]
  intro ls
  induction ls with
  | nil => rfl
  | cons l ls ih =>
    by_cases m1 : matchesKey k1 l
    · have m2 : matchesKey k2 l = false := by
        cases hm : matchesKey k2 l
        · rfl
        · exact absurd (disj l m1 hm) (by simp)
      simp [rfKey, replaceFirst, m1, m2, hr1]
    · by_cases m2 : matchesKey k2 l
      · simp [rfKey, replaceFirst, m1, m2, hr2]
      · simp only [rfKey, replaceFirst, m1, m2, if_neg, Bool.false_eq_true, if_false]
        exact congrArg (List.cons l) ih

lemma rfKey_self (k r : String) (h : matchesKey k r = true) :
    ∀ ls : List String, rfKey k r (rfKey k r ls) = rfKey k r ls := by
  intro ls
  induction ls with
  | nil => rfl
  | cons l ls ih =>
    by_cases m : matchesKey k l
    · simp [rfKey, replaceFirst, m, h]
    · simp only [rfKey, replaceFirst, m, Bool.false_eq_true, if_false]
      exact congrArg (List.cons l) ih

lemma rfKey_of_countP_zero (k r : String) :
    ∀ ls : List String, List.countP (matchesKey k) ls = 0 → rfKey k r ls = ls := by
  intro ls
  induction ls with
  | nil => intro; rfl
  | cons l ls ih =>
    intro h
    rw [List.countP_cons] at h
    have hm : matchesKey k l = false := by
      cases hm : matchesKey k l
      · rfl
      · simp [hm] at h
    have hz : List.countP (matchesKey k) ls = 0 := by omega
    simp only [rfKey, replaceFirst, hm, Bool.false_eq_true, if_false]
    rw [show replaceFirst (matchesKey k) r ls = rfKey k r ls from rfl, ih hz]

lemma rfKey_once (k r : String) (h : matchesKey k r = false) :
    ∀ ls : List String, List.countP (matchesKey k) ls ≤ 1 →
      rfKey k r (rfKey k r ls) = rfKey k r ls := by
  intro ls
  induction ls with
  | nil => intro; rfl
  | cons l ls ih =>
    intro hc
    rw [List.countP_cons] at hc
    by_cases m : matchesKey k l
    · have hz : List.countP (matchesKey k) ls = 0 := by rw [if_pos m] at hc; omega
      simp only [rfKey, replaceFirst, m, if_true, h, Bool.false_eq_true, if_false]
      exact congrArg (List.cons r) (rfKey_of_countP_zero k r ls hz)
    · have hc2 : List.countP (matchesKey k) ls ≤ 1 := by omega
      simp only [rfKey, replaceFirst, m, Bool.false_eq_true, if_false]
      exact congrArg (List.cons l) (ih hc2)

lemma countP_rfKey_le (k k2 r2 : String) (h : matchesKey k r2 = false) :
    ∀ ls : List String,
      List.countP (matchesKey k) (rfKey k2 r2 ls) ≤ List.countP (matchesKey k) ls := by
  intro ls
  induction ls with
  | nil => simp [rfKey, replaceFirst]
  | cons l ls ih =>
    by_cases m : matchesKey k2 l
    · simp only [rfKey, replaceFirst, m, if_true, List.countP_cons, h,
        Bool.false_eq_true, if_false, Nat.add_zero]
      exact Nat.le_add_right _ _
    · simp only [rfKey, replaceFirst, m, Bool.false_eq_true, if_false, List.countP_cons]
      have ih2 : List.countP (matchesKey k) (replaceFirst (matchesKey k2) r2 ls) ≤
          List.countP (matchesKey k) ls := ih
      omega

lemma takeWhile_append_all (p : Char → Bool) (l1 l2 : List Char)
    (h : ∀ a ∈ l1, p a = true) :
    (l1 ++ l2).takeWhile p = l1 ++ l2.takeWhile p := by
  induction l1 with
  | nil => simp
  | cons a as ih =>
    simp only [List.cons_append, List.takeWhile_cons]
    rw [h a (by simp), ih fun x hx => h x (by simp [hx])]
    simp

lemma basenameCore_append (pre seg : List Char)
    (hmem : ∀ a ∈ seg, (!(a = '/')) = true) (hne : seg ≠ []) :
    basenameCore (pre ++ '/' :: seg) = seg := by
  unfold basenameCore
  rw [List.reverse_append, List.reverse_cons]
  cases hrev : seg.reverse with
  | nil => exact absurd (by simpa using congrArg List.reverse hrev) hne
  | cons a as =>
    have hmem2 : ∀ x ∈ a :: as, (!(x = '/')) = true := by
      intro x hx
      exact hmem x (by rw [← List.mem_reverse, hrev]; exact hx)
    have ha : decide (a = '/') = false := by
      have h3 := hmem2 a (by simp)
      rwa [Bool.not_eq_true'] at h3
    rw [List.append_assoc]
    simp only [List.cons_append, List.dropWhile_cons, List.takeWhile_cons, ha,
      Bool.false_eq_true, if_false, Bool.not_false, if_true]
    rw [takeWhile_append_all _ as _ fun x hx => hmem2 x (by simp [hx])]
    simp only [List.singleton_append, List.takeWhile_cons, eq_self_iff_true, decide_True,
      Bool.not_true, Bool.false_eq_true, if_false, List.append_nil]
    rw [← hrev, List.reverse_reverse]

lemma stripExt_append (a ext : List Char) (h : a ≠ []) : stripExt (a ++ ext) ext = a := by
  have hne : ¬(a ++ ext = ext) := by
    intro hh
    apply h
    have hlen := congrArg List.length hh
    simp only [List.length_append] at hlen
    have hz : a.length = 0 := by omega
    exact List.eq_nil_of_length_eq_zero hz
  have e1 : (a ++ ext).length - ext.length = a.length := by simp
  have cond : (a ++ ext ≠ ext) ∧ (a ++ ext).drop ((a ++ ext).length - ext.length) = ext := by
    refine ⟨hne, ?_⟩
    rw [e1, List.drop_left]
  rw [stripExt, if_pos cond, e1, List.take_left]

lemma data_ne_nil (s : String) (h : s ≠ "") : s.data ≠ [] := by
  intro hh
  apply h
  cases s with
  | mk l =>
    simp only at hh
    rw [hh]

/-! ## Helper lemmas about the run model -/

lemma trace_stepCleanup (s : St) : (stepCleanup s).trace = s.trace := by
  unfold stepCleanup catchRes
  split <;> rfl

lemma trace_stepMigrate (e : Env) (s : St) :
    (stepMigrate e s).trace = s.trace ++ [Cmd.migrate] := by
  unfold stepMigrate
  split <;> rw [trace_stepCleanup]

lemma trace_stepConfigure (e : Env) (s : St) (lines : List String) :
    (stepConfigure e s lines).trace =
      s.trace ++ [Cmd.dockerDebugLs, Cmd.touchDb, Cmd.keyGenerate] ++
        (if e.keyGenOk then [Cmd.migrate] else []) := by
  unfold stepConfigure
  split
  · split
    · rw [trace_stepMigrate]
      simp
    · simp [catchRes]
  · split
    · rw [trace_stepMigrate]
      simp
    · simp [catchRes]

lemma mem_trace_stepArtisan (e : Env) (s : St) (lines : List String) (c : Cmd)
    (h : c ∈ (stepArtisan e s lines).trace) :
    c ∈ s.trace ∨ c ∈ [Cmd.listRepoDir, Cmd.dockerDebugLs, Cmd.touchDb,
      Cmd.keyGenerate, Cmd.migrate] := by
  unfold stepArtisan at h
  split at h
  · rw [trace_stepConfigure] at h
    simp only [List.append_assoc, List.mem_append] at h
    rcases h with h | h
    · exact Or.inl h
    · right
      rcases h with h | h
      · simp at h
        rcases h with h | h | h <;> simp [h]
      · split at h <;> simp at h
        simp [h]
  · simp only [catchRes, List.mem_append] at h
    rcases h with h | h
    · exact Or.inl h
    · simp at h
      simp [h]

lemma mem_trace_stepEnvFile (e : Env) (s : St) (c : Cmd)
    (h : c ∈ (stepEnvFile e s).trace) :
    c ∈ s.trace ∨ c ∈ [Cmd.cpEnvExample, Cmd.listRepoDir, Cmd.dockerDebugLs,
      Cmd.touchDb, Cmd.keyGenerate, Cmd.migrate] := by
  unfold stepEnvFile at h
  split at h
  · rcases mem_trace_stepArtisan _ _ _ _ h with h1 | h1
    · exact Or.inl h1
    · right
      simp at h1
      rcases h1 with h1 | h1 | h1 | h1 | h1 <;> simp [h1]
  · split at h
    · rcases mem_trace_stepArtisan _ _ _ _ h with h1 | h1
      · simp only [List.mem_append] at h1
        rcases h1 with h1 | h1
        · exact Or.inl h1
        · right
          simp at h1
          simp [h1]
      · right
        simp at h1
        rcases h1 with h1 | h1 | h1 | h1 | h1 <;> simp [h1]
    · simp only [catchRes, List.mem_append] at h
      rcases h with h | h
      · exact Or.inl h
      · right
        simp at h
        simp [h]

lemma mem_trace_stepComposer (e : Env) (s : St) (c : Cmd)
    (h : c ∈ (stepComposer e s).trace) :
    c ∈ s.trace ∨ c ∈ [Cmd.curlComposer, Cmd.composerInstall, Cmd.cpEnvExample,
      Cmd.listRepoDir, Cmd.dockerDebugLs, Cmd.touchDb, Cmd.keyGenerate, Cmd.migrate] := by
  unfold stepComposer at h
  split at h
  · split at h
    · rcases mem_trace_stepEnvFile _ _ _ h with h1 | h1
      · simp only [List.mem_append] at h1
        rcases h1 with h1 | h1
        · exact Or.inl h1
        · right
          simp at h1
          rcases h1 with h1 | h1 <;> simp [h1]
      · right
        simp at h1
        rcases h1 with h1 | h1 | h1 | h1 | h1 | h1 <;> simp [h1]
    · simp only [catchRes, List.mem_append] at h
      rcases h with h | h
      · exact Or.inl h
      · right
        simp at h
        rcases h with h | h <;> simp [h]
  · simp only [catchRes, List.mem_append] at h
    rcases h with h | h
    · exact Or.inl h
    · right
      simp at h
      simp [h]

lemma mem_trace_stepManifest (e : Env) (s : St) (c : Cmd)
    (h : c ∈ (stepManifest e s).trace) :
    c ∈ s.trace ∨ c ∈ [Cmd.curlComposer, Cmd.composerInstall, Cmd.cpEnvExample,
      Cmd.listRepoDir, Cmd.dockerDebugLs, Cmd.touchDb, Cmd.keyGenerate, Cmd.migrate] := by
  unfold stepManifest at h
  split at h
  · exact mem_trace_stepComposer _ _ _ h
  · exact Or.inl h

lemma not_mem_append_of (c : Cmd) (t u : List Cmd) (h1 : c ∉ t) (h2 : c ∉ u) :
    c ∉ t ++ u := by
  intro h
  rcases List.mem_append.mp h with h | h
  · exact h1 h
  · exact h2 h

lemma cleanup_of_phar (s : St) (h : s.phar = true) :
    (stepCleanup s).exitCode = 0 ∧ (stepCleanup s).phar = false := by
  unfold stepCleanup
  rw [if_pos h]
  exact ⟨rfl, rfl⟩

lemma migrate_result (e : Env) (s : St) (h : s.phar = true) :
    (stepMigrate e s).exitCode = 0 ∧ (stepMigrate e s).phar = false := by
  unfold stepMigrate
  split <;> exact cleanup_of_phar _ h

lemma good_stepConfigure (e : Env) (s : St) (lines : List String)
    (hphar : s.phar = true) (hmem : Cmd.migrate ∉ s.trace) :
    Cmd.migrate ∈ (stepConfigure e s lines).trace →
      (stepConfigure e s lines).exitCode = 0 ∧ (stepConfigure e s lines).phar = false := by
  simp only [stepConfigure, ite_self]
  by_cases hk : e.keyGenOk = true
  · rw [if_pos hk]
    intro
    exact migrate_result _ _ hphar
  · rw [if_neg hk]
    intro hm
    exact absurd hm (not_mem_append_of _ _ _
      (not_mem_append_of _ _ _ hmem (by decide)) (by decide))

lemma good_stepArtisan (e : Env) (s : St) (lines : List String)
    (hphar : s.phar = true) (hmem : Cmd.migrate ∉ s.trace) :
    Cmd.migrate ∈ (stepArtisan e s lines).trace →
      (stepArtisan e s lines).exitCode = 0 ∧ (stepArtisan e s lines).phar = false := by
  unfold stepArtisan
  by_cases ha : e.artisanExists = true
  · rw [if_pos ha]
    exact good_stepConfigure e s lines hphar hmem
  · rw [if_neg ha]
    intro hm
    exact absurd hm (not_mem_append_of _ _ _ hmem (by decide))

lemma good_stepEnvFile (e : Env) (s : St)
    (hphar : s.phar = true) (hmem : Cmd.migrate ∉ s.trace) :
    Cmd.migrate ∈ (stepEnvFile e s).trace →
      (stepEnvFile e s).exitCode = 0 ∧ (stepEnvFile e s).phar = false := by
  unfold stepEnvFile
  cases hs : s.envFile with
  | some lines => exact good_stepArtisan e s lines hphar hmem
  | none =>
    by_cases hc : e.cpOk = true
    · rw [if_pos hc]
      exact good_stepArtisan e _ _ hphar (not_mem_append_of _ _ _ hmem (by decide))
    · rw [if_neg hc]
      intro hm
      exact absurd hm (not_mem_append_of _ _ _ hmem (by decide))

lemma good_stepComposer (e : Env) (s : St) (hmem : Cmd.migrate ∉ s.trace) :
    Cmd.migrate ∈ (stepComposer e s).trace →
      (stepComposer e s).exitCode = 0 ∧ (stepComposer e s).phar = false := by
  unfold stepComposer
  by_cases hcu : e.curlOk = true
  · rw [if_pos hcu]
    by_cases hin : e.installOk = true
    · rw [if_pos hin]
      exact good_stepEnvFile e _ rfl (not_mem_append_of _ _ _ hmem (by decide))
    · rw [if_neg hin]
      intro hm
      exact absurd hm (not_mem_append_of _ _ _ hmem (by decide))
  · rw [if_neg hcu]
    intro hm
    exact absurd hm (not_mem_append_of _ _ _ hmem (by decide))

lemma good_stepManifest (e : Env) (s : St) (hmem : Cmd.migrate ∉ s.trace) :
    Cmd.migrate ∈ (stepManifest e s).trace →
      (stepManifest e s).exitCode = 0 ∧ (stepManifest e s).phar = false := by
  unfold stepManifest
  by_cases hj : e.composerJsonExists = true
  · rw [if_pos hj]
    exact good_stepComposer e s hmem
  · rw [if_neg hj]
    intro hm
    exact absurd hm hmem

lemma good_stepClone (e : Env) (s : St) (hmem : Cmd.migrate ∉ s.trace) :
    Cmd.migrate ∈ (stepClone e s).trace →
      (stepClone e s).exitCode = 0 ∧ (stepClone e s).phar = false := by
  unfold stepClone
  by_cases hd : e.repoDirExists = true
  · rw [if_pos hd]
    exact good_stepManifest e s hmem
  · rw [if_neg hd]
    by_cases hcl : e.cloneOk = true
    · rw [if_pos hcl]
      exact good_stepManifest e _ (not_mem_append_of _ _ _ hmem (by decide))
    · rw [if_neg hcl]
      intro hm
      exact absurd hm (not_mem_append_of _ _ _ hmem (by decide))

lemma sql_stepCleanup (s : St) : (stepCleanup s).sqliteFile = s.sqliteFile := by
  unfold stepCleanup catchRes
  split <;> rfl

lemma sql_stepMigrate (e : Env) (s : St) : (stepMigrate e s).sqliteFile = s.sqliteFile := by
  unfold stepMigrate
  split <;> rw [sql_stepCleanup]

lemma sql_stepConfigure (e : Env) (s : St) (lines : List String) (c : String)
    (h : s.sqliteFile = some c) :
    (stepConfigure e s lines).sqliteFile = some c := by
  simp only [stepConfigure, ite_self]
  by_cases hk : e.keyGenOk = true
  · rw [if_pos hk, sql_stepMigrate]
    simp [h]
  · rw [if_neg hk]
    simp [catchRes, h]

lemma sql_stepArtisan (e : Env) (s : St) (lines : List String) (c : String)
    (h : s.sqliteFile = some c) :
    (stepArtisan e s lines).sqliteFile = some c := by
  unfold stepArtisan
  by_cases ha : e.artisanExists = true
  · rw [if_pos ha]
    exact sql_stepConfigure e s lines c h
  · rw [if_neg ha]
    exact h

lemma sql_stepEnvFile (e : Env) (s : St) (c : String) (h : s.sqliteFile = some c) :
    (stepEnvFile e s).sqliteFile = some c := by
  unfold stepEnvFile
  cases hs : s.envFile with
  | some lines => exact sql_stepArtisan e s lines c h
  | none =>
    by_cases hc : e.cpOk = true
    · rw [if_pos hc]
      exact sql_stepArtisan e _ _ c h
    · rw [if_neg hc]
      exact h

lemma sql_stepComposer (e : Env) (s : St) (c : String) (h : s.sqliteFile = some c) :
    (stepComposer e s).sqliteFile = some c := by
  unfold stepComposer
  by_cases hcu : e.curlOk = true
  · rw [if_pos hcu]
    by_cases hin : e.installOk = true
    · rw [if_pos hin]
      exact sql_stepEnvFile e _ c h
    · rw [if_neg hin]
      exact h
  · rw [if_neg hcu]
    exact h

lemma sql_stepManifest (e : Env) (s : St) (c : String) (h : s.sqliteFile = some c) :
    (stepManifest e s).sqliteFile = some c := by
  unfold stepManifest
  by_cases hj : e.composerJsonExists = true
  · rw [if_pos hj]
    exact sql_stepComposer e s c h
  · rw [if_neg hj]
    exact h

lemma sql_stepClone (e : Env) (s : St) (c : String) (h : s.sqliteFile = some c) :
    (stepClone e s).sqliteFile = some c := by
  unfold stepClone
  by_cases hd : e.repoDirExists = true
  · rw [if_pos hd]
    exact sql_stepManifest e s c h
  · rw [if_neg hd]
    by_cases hcl : e.cloneOk = true
    · rw [if_pos hcl]
      exact sql_stepManifest e _ c h
    · rw [if_neg hcl]
      exact h

lemma succ_stepCleanup (s : St) (h : (stepCleanup s).exitCode = 0) :
    (stepCleanup s).phar = false ∧ (stepCleanup s).setup = s.setup := by
  unfold stepCleanup at h ⊢
  by_cases hp : s.phar = true
  · rw [if_pos hp]
    exact ⟨rfl, rfl⟩
  · rw [if_neg hp] at h
    exact absurd h (by simp [catchRes])

lemma succ_stepMigrate (e : Env) (s : St) (h : (stepMigrate e s).exitCode = 0) :
    (stepMigrate e s).phar = false ∧ (stepMigrate e s).setup = s.setup := by
  unfold stepMigrate at h ⊢
  split at h <;> split <;> exact succ_stepCleanup _ h

lemma succ_stepConfigure (e : Env) (s : St) (lines : List String)
    (h : (stepConfigure e s lines).exitCode = 0) :
    (stepConfigure e s lines).phar = false ∧ (stepConfigure e s lines).setup = s.setup := by
  simp only [stepConfigure, ite_self] at h ⊢
  by_cases hk : e.keyGenOk = true
  · rw [if_pos hk] at h ⊢
    exact succ_stepMigrate e _ h
  · rw [if_neg hk] at h
    exact absurd h (by simp [catchRes])

lemma succ_stepArtisan (e : Env) (s : St) (lines : List String)
    (h : (stepArtisan e s lines).exitCode = 0) :
    (stepArtisan e s lines).phar = false ∧ (stepArtisan e s lines).setup = s.setup := by
  unfold stepArtisan at h ⊢
  by_cases ha : e.artisanExists = true
  · rw [if_pos ha] at h ⊢
    exact succ_stepConfigure e s lines h
  · rw [if_neg ha] at h
    exact absurd h (by simp [catchRes])

lemma succ_stepEnvFile (e : Env) (s : St) (h : (stepEnvFile e s).exitCode = 0) :
    (stepEnvFile e s).phar = false ∧ (stepEnvFile e s).setup = s.setup := by
  unfold stepEnvFile at h ⊢
  cases hs : s.envFile with
  | some lines =>
    rw [hs] at h
    exact succ_stepArtisan e s lines h
  | none =>
    rw [hs] at h
    by_cases hc : e.cpOk = true
    · rw [if_pos hc] at h ⊢
      exact succ_stepArtisan e _ _ h
    · rw [if_neg hc] at h
      exact absurd h (by simp [catchRes])

lemma succ_stepComposer (e : Env) (s : St) (h : (stepComposer e s).exitCode = 0) :
    (stepComposer e s).phar = false ∧ (stepComposer e s).setup = s.setup := by
  unfold stepComposer at h ⊢
  by_cases hcu : e.curlOk = true
  · rw [if_pos hcu] at h ⊢
    by_cases hin : e.installOk = true
    · rw [if_pos hin] at h ⊢
      exact succ_stepEnvFile e _ h
    · rw [if_neg hin] at h
      exact absurd h (by simp [catchRes])
  · rw [if_neg hcu] at h
    exact absurd h (by simp [catchRes])

lemma succ_stepManifest (e : Env) (s : St) (h : (stepManifest e s).exitCode = 0) :
    (stepManifest e s).phar = false ∧ (stepManifest e s).setup = s.setup := by
  unfold stepManifest at h ⊢
  by_cases hj : e.composerJsonExists = true
  · rw [if_pos hj] at h ⊢
    exact succ_stepComposer e s h
  · rw [if_neg hj] at h
    exact absurd h (by simp [exitRes])

lemma succ_stepClone (e : Env) (s : St) (h : (stepClone e s).exitCode = 0) :
    (stepClone e s).phar = false ∧ (stepClone e s).setup = s.setup := by
  unfold stepClone at h ⊢
  by_cases hd : e.repoDirExists = true
  · rw [if_pos hd] at h ⊢
    exact succ_stepManifest e s h
  · rw [if_neg hd] at h ⊢
    by_cases hcl : e.cloneOk = true
    · rw [if_pos hcl] at h ⊢
      exact succ_stepManifest e _ h
    · rw [if_neg hcl] at h
      exact absurd h (by simp [catchRes])

lemma absent_stepArtisan (e : Env) (s : St) (lines : List String)
    (h : e.artisanExists = false)
    (hk : Cmd.keyGenerate ∉ s.trace) (hm : Cmd.migrate ∉ s.trace) :
    (stepArtisan e s lines).exitCode = 1 ∧
      Cmd.keyGenerate ∉ (stepArtisan e s lines).trace ∧
      Cmd.migrate ∉ (stepArtisan e s lines).trace := by
  unfold stepArtisan
  rw [if_neg (by simp [h])]
  exact ⟨rfl, not_mem_append_of _ _ _ hk (by decide),
    not_mem_append_of _ _ _ hm (by decide)⟩

lemma absent_stepEnvFile (e : Env) (s : St) (h : e.artisanExists = false)
    (hk : Cmd.keyGenerate ∉ s.trace) (hm : Cmd.migrate ∉ s.trace) :
    (stepEnvFile e s).exitCode = 1 ∧
      Cmd.keyGenerate ∉ (stepEnvFile e s).trace ∧
      Cmd.migrate ∉ (stepEnvFile e s).trace := by
  unfold stepEnvFile
  cases hs : s.envFile with
  | some lines => exact absent_stepArtisan e s lines h hk hm
  | none =>
    by_cases hc : e.cpOk = true
    · rw [if_pos hc]
      exact absent_stepArtisan e _ _ h
        (not_mem_append_of _ _ _ hk (by decide))
        (not_mem_append_of _ _ _ hm (by decide))
    · rw [if_neg hc]
      exact ⟨rfl, not_mem_append_of _ _ _ hk (by decide),
        not_mem_append_of _ _ _ hm (by decide)⟩

lemma absent_stepComposer (e : Env) (s : St) (h : e.artisanExists = false)
    (hk : Cmd.keyGenerate ∉ s.trace) (hm : Cmd.migrate ∉ s.trace) :
    (stepComposer e s).exitCode = 1 ∧
      Cmd.keyGenerate ∉ (stepComposer e s).trace ∧
      Cmd.migrate ∉ (stepComposer e s).trace := by
  unfold stepComposer
  by_cases hcu : e.curlOk = true
  · rw [if_pos hcu]
    by_cases hin : e.installOk = true
    · rw [if_pos hin]
      exact absent_stepEnvFile e _ h
        (not_mem_append_of _ _ _ hk (by decide))
        (not_mem_append_of _ _ _ hm (by decide))
    · rw [if_neg hin]
      exact ⟨rfl, not_mem_append_of _ _ _ hk (by decide),
        not_mem_append_of _ _ _ hm (by decide)⟩
  · rw [if_neg hcu]
    exact ⟨rfl, not_mem_append_of _ _ _ hk (by decide),
      not_mem_append_of _ _ _ hm (by decide)⟩

lemma absent_stepManifest (e : Env) (s : St) (h : e.artisanExists = false)
    (hk : Cmd.keyGenerate ∉ s.trace) (hm : Cmd.migrate ∉ s.trace) :
    (stepManifest e s).exitCode = 1 ∧
      Cmd.keyGenerate ∉ (stepManifest e s).trace ∧
      Cmd.migrate ∉ (stepManifest e s).trace := by
  unfold stepManifest
  by_cases hj : e.composerJsonExists = true
  · rw [if_pos hj]
    exact absent_stepComposer e s h hk hm
  · rw [if_neg hj]
    exact ⟨rfl, hk, hm⟩

lemma absent_stepClone (e : Env) (s : St) (h : e.artisanExists = false)
    (hk : Cmd.keyGenerate ∉ s.trace) (hm : Cmd.migrate ∉ s.trace) :
    (stepClone e s).exitCode = 1 ∧
      Cmd.keyGenerate ∉ (stepClone e s).trace ∧
      Cmd.migrate ∉ (stepClone e s).trace := by
  unfold stepClone
  by_cases hd : e.repoDirExists = true
  · rw [if_pos hd]
    exact absent_stepManifest e s h hk hm
  · rw [if_neg hd]
    by_cases hcl : e.cloneOk = true
    · rw [if_pos hcl]
      exact absent_stepManifest e _ h
        (not_mem_append_of _ _ _ hk (by decide))
        (not_mem_append_of _ _ _ hm (by decide))
    · rw [if_neg hcl]
      exact ⟨rfl, not_mem_append_of _ _ _ hk (by decide),
        not_mem_append_of _ _ _ hm (by decide)⟩

lemma ld_stepArtisan (e : Env) (s : St) (lines : List String)
    (h : e.artisanExists = false) :
    Cmd.listRepoDir ∈ (stepArtisan e s lines).trace := by
  unfold stepArtisan
  rw [if_neg (by simp [h])]
  simp [catchRes]

lemma ld_stepEnvFile (e : Env) (s : St) (h : e.artisanExists = false)
    (hcp : s.envFile.isSome = true ∨ e.cpOk = true) :
    Cmd.listRepoDir ∈ (stepEnvFile e s).trace := by
  unfold stepEnvFile
  cases hs : s.envFile with
  | some lines => exact ld_stepArtisan e s lines h
  | none =>
    rcases hcp with hcp | hcp
    · rw [hs] at hcp
      simp at hcp
    · rw [if_pos hcp]
      exact ld_stepArtisan e _ _ h

lemma ld_stepComposer (e : Env) (s : St) (h : e.artisanExists = false)
    (hcu : e.curlOk = true) (hin : e.installOk = true)
    (hcp : s.envFile.isSome = true ∨ e.cpOk = true) :
    Cmd.listRepoDir ∈ (stepComposer e s).trace := by
  unfold stepComposer
  rw [if_pos hcu, if_pos hin]
  exact ld_stepEnvFile e _ h hcp

lemma ld_stepManifest (e : Env) (s : St) (h : e.artisanExists = false)
    (hj : e.composerJsonExists = true)
    (hcu : e.curlOk = true) (hin : e.installOk = true)
    (hcp : s.envFile.isSome = true ∨ e.cpOk = true) :
    Cmd.listRepoDir ∈ (stepManifest e s).trace := by
  unfold stepManifest
  rw [if_pos hj]
  exact ld_stepComposer e s h hcu hin hcp

lemma ld_stepClone (e : Env) (s : St) (h : e.artisanExists = false)
    (hdir : e.repoDirExists = true ∨ e.cloneOk = true)
    (hj : e.composerJsonExists = true)
    (hcu : e.curlOk = true) (hin : e.installOk = true)
    (hcp : s.envFile.isSome = true ∨ e.cpOk = true) :
    Cmd.listRepoDir ∈ (stepClone e s).trace := by
  unfold stepClone
  by_cases hd : e.repoDirExists = true
  · rw [if_pos hd]
    exact ld_stepManifest e s h hj hcu hin hcp
  · rw [if_neg hd]
    rcases hdir with hdir | hdir
    · exact absurd hdir hd
    · rw [if_pos hdir]
      exact ld_stepManifest e _ h hj hcu hin hcp

lemma run_none (e : Env) (h : e.url = none) : run e = exitRes (st0 e) := by
  simp [run, h, st0]

lemma run_some (e : Env) (u : String) (h : e.url = some u) :
    run e =
      if e.dockerExists = true then stepClone e (st1 e) else exitRes (st1 e) := by
  simp [run, h, st0, st1]

/-! ## The claims -/

/-- Claim C1: the configuration rewrite replaces, for each of the six fixed
keys, the first line matching the key at line start by the fixed value
(connection to sqlite, database path, commented host and port, emptied
username and password), and inserts no line for keys with no matching line:
it agrees with the spec-side in-place first-match rewrite and preserves the
number of lines. -/
theorem C1_env_rewrite_first_match (ls : List String) :
    rewriteEnv ls = rewriteEnvSpec ls ∧ (rewriteEnv ls).length = ls.length := by
  constructor
  · simp only [rewriteEnv, rewriteEnvSpec, rfKey, replaceFirst_eq_spec]
  · simp only [rewriteEnv, rfKey, length_replaceFirst]

/-- Claim C2, amended: for every nonempty constraint string the detector
deletes every character that is not a digit or a dot, splits on dots and keeps
the first two components joined by a dot; the constraint `^8.2` yields `8.2`,
`8.1.30` yields `8.1`, and an absent constraint takes the default `8.2`. (The
present empty string also takes the default, being falsy in JS.) -/
theorem C2_version_detection (s : String) (h : s ≠ "") :
    detectTag (some s) = String.mk (majorVersion (s.data.filter isVersionChar)) ∧
    detectTag (some "^8.2") = "8.2" ∧ detectTag (some "8.1.30") = "8.1" ∧
    detectTag none = "8.2" := by
  refine ⟨?_, by decide, by decide, by decide⟩
  show String.mk (majorVersion
      (if s.data = [] then "8.2".data else s.data.filter isVersionChar)) =
    String.mk (majorVersion (s.data.filter isVersionChar))
  rw [if_neg (data_ne_nil s h)]

/-- Claim C2, counterexample: on the present empty constraint string the code
takes the default `8.2` instead of the filter-split-join normalization, which
would give the empty tag. -/
theorem C2_counterexample :
    detectTag (some "") ≠ String.mk (majorVersion (List.filter isVersionChar "".data)) := by
  decide

/-- Claim C2, witness at the constraint string of the spec scenario. -/
theorem C2_witness :
    "^8.3" ≠ "" ∧
    detectTag (some "^8.3") = String.mk (majorVersion ("^8.3".data.filter isVersionChar)) :=
  ⟨by decide, (C2_version_detection "^8.3" (by decide)).1⟩

/-- Claim C4, amended: the six-key rewrite is idempotent on every content in
which at most one line starts with `DB_HOST=` and at most one line starts with
`DB_PORT=`; in particular an already rewritten `DB_CONNECTION=sqlite` line
stays unchanged and the commented host and port lines are not commented a
second time. (With a duplicated host or port line a second run comments the
next matching line, so unrestricted idempotence fails.) -/
theorem C4_rewrite_idempotent (ls : List String)
    (hH : List.countP (matchesKey "DB_HOST=") ls ≤ 1)
    (hP : List.countP (matchesKey "DB_PORT=") ls ≤ 1) :
    rewriteEnv (rewriteEnv ls) = rewriteEnv ls := by
  have pull1 : ∀ X : List String,
      rfKey "DB_CONNECTION=" "DB_CONNECTION=sqlite" (rewriteEnv X) = rewriteEnv X := by
    intro X
    unfold rewriteEnv
    rw [rfKey_comm "DB_CONNECTION=" "DB_CONNECTION=sqlite" "DB_PASSWORD=" "DB_PASSWORD="
        (by decide) (by decide) (by decide) (by decide),
      rfKey_comm "DB_CONNECTION=" "DB_CONNECTION=sqlite" "DB_USERNAME=" "DB_USERNAME="
        (by decide) (by decide) (by decide) (by decide),
      rfKey_comm "DB_CONNECTION=" "DB_CONNECTION=sqlite" "DB_PORT=" "# DB_PORT="
        (by decide) (by decide) (by decide) (by decide),
      rfKey_comm "DB_CONNECTION=" "DB_CONNECTION=sqlite" "DB_HOST=" "# DB_HOST="
        (by decide) (by decide) (by decide) (by decide),
      rfKey_comm "DB_CONNECTION=" "DB_CONNECTION=sqlite" "DB_DATABASE="
        "DB_DATABASE=/database/database.sqlite"
        (by decide) (by decide) (by decide) (by decide),
      rfKey_self "DB_CONNECTION=" "DB_CONNECTION=sqlite" (by decide)]
  have pull2 : ∀ X : List String,
      rfKey "DB_DATABASE=" "DB_DATABASE=/database/database.sqlite" (rewriteEnv X) =
        rewriteEnv X := by
    intro X
    unfold rewriteEnv
    rw [rfKey_comm "DB_DATABASE=" "DB_DATABASE=/database/database.sqlite"
        "DB_PASSWORD=" "DB_PASSWORD=" (by decide) (by decide) (by decide) (by decide),
      rfKey_comm "DB_DATABASE=" "DB_DATABASE=/database/database.sqlite"
        "DB_USERNAME=" "DB_USERNAME=" (by decide) (by decide) (by decide) (by decide),
      rfKey_comm "DB_DATABASE=" "DB_DATABASE=/database/database.sqlite"
        "DB_PORT=" "# DB_PORT=" (by decide) (by decide) (by decide) (by decide),
      rfKey_comm "DB_DATABASE=" "DB_DATABASE=/database/database.sqlite"
        "DB_HOST=" "# DB_HOST=" (by decide) (by decide) (by decide) (by decide),
      rfKey_self "DB_DATABASE=" "DB_DATABASE=/database/database.sqlite" (by decide)]
  have cH : List.countP (matchesKey "DB_HOST=")
      (rfKey "DB_DATABASE=" "DB_DATABASE=/database/database.sqlite"
        (rfKey "DB_CONNECTION=" "DB_CONNECTION=sqlite" ls)) ≤ 1 :=
    le_trans (countP_rfKey_le "DB_HOST=" "DB_DATABASE="
        "DB_DATABASE=/database/database.sqlite" (by decide) _)
      (le_trans (countP_rfKey_le "DB_HOST=" "DB_CONNECTION=" "DB_CONNECTION=sqlite"
        (by decide) ls) hH)
  have pull3 : rfKey "DB_HOST=" "# DB_HOST=" (rewriteEnv ls) = rewriteEnv ls := by
    unfold rewriteEnv
    rw [rfKey_comm "DB_HOST=" "# DB_HOST=" "DB_PASSWORD=" "DB_PASSWORD="
        (by decide) (by decide) (by decide) (by decide),
      rfKey_comm "DB_HOST=" "# DB_HOST=" "DB_USERNAME=" "DB_USERNAME="
        (by decide) (by decide) (by decide) (by decide),
      rfKey_comm "DB_HOST=" "# DB_HOST=" "DB_PORT=" "# DB_PORT="
        (by decide) (by decide) (by decide) (by decide),
      rfKey_once "DB_HOST=" "# DB_HOST=" (by decide) _ cH]
  have cP : List.countP (matchesKey "DB_PORT=")
      (rfKey "DB_HOST=" "# DB_HOST="
        (rfKey "DB_DATABASE=" "DB_DATABASE=/database/database.sqlite"
          (rfKey "DB_CONNECTION=" "DB_CONNECTION=sqlite" ls))) ≤ 1 :=
    le_trans (countP_rfKey_le "DB_PORT=" "DB_HOST=" "# DB_HOST=" (by decide) _)
      (le_trans (countP_rfKey_le "DB_PORT=" "DB_DATABASE="
          "DB_DATABASE=/database/database.sqlite" (by decide) _)
        (le_trans (countP_rfKey_le "DB_PORT=" "DB_CONNECTION=" "DB_CONNECTION=sqlite"
          (by decide) ls) hP))
  have pull4 : rfKey "DB_PORT=" "# DB_PORT=" (rewriteEnv ls) = rewriteEnv ls := by
    unfold rewriteEnv
    rw [rfKey_comm "DB_PORT=" "# DB_PORT=" "DB_PASSWORD=" "DB_PASSWORD="
        (by decide) (by decide) (by decide) (by decide),
      rfKey_comm "DB_PORT=" "# DB_PORT=" "DB_USERNAME=" "DB_USERNAME="
        (by decide) (by decide) (by decide) (by decide),
      rfKey_once "DB_PORT=" "# DB_PORT=" (by decide) _ cP]
  have pull5 : ∀ X : List String,
      rfKey "DB_USERNAME=" "DB_USERNAME=" (rewriteEnv X) = rewriteEnv X := by
    intro X
    unfold rewriteEnv
    rw [rfKey_comm "DB_USERNAME=" "DB_USERNAME=" "DB_PASSWORD=" "DB_PASSWORD="
        (by decide) (by decide) (by decide) (by decide),
      rfKey_self "DB_USERNAME=" "DB_USERNAME=" (by decide)]
  have pull6 : ∀ X : List String,
      rfKey "DB_PASSWORD=" "DB_PASSWORD=" (rewriteEnv X) = rewriteEnv X := by
    intro X
    unfold rewriteEnv
    rw [rfKey_self "DB_PASSWORD=" "DB_PASSWORD=" (by decide)]
  show rfKey "DB_PASSWORD=" "DB_PASSWORD="
      (rfKey "DB_USERNAME=" "DB_USERNAME="
        (rfKey "DB_PORT=" "# DB_PORT="
          (rfKey "DB_HOST=" "# DB_HOST="
            (rfKey "DB_DATABASE=" "DB_DATABASE=/database/database.sqlite"
              (rfKey "DB_CONNECTION=" "DB_CONNECTION=sqlite" (rewriteEnv ls)))))) =
      rewriteEnv ls
  rw [pull1, pull2, pull3, pull4, pull5, pull6]

/-- Claim C4, counterexample: with two lines starting with `DB_HOST=` the
second run of the rewrite comments the second line as well, so the rewrite is
not idempotent on every input. -/
theorem C4_counterexample :
    rewriteEnv (rewriteEnv ["DB_HOST=127.0.0.1", "DB_HOST=localhost"]) ≠
      rewriteEnv ["DB_HOST=127.0.0.1", "DB_HOST=localhost"] := by
  decide

/-- Claim C4, witness on a typical environment file. -/
theorem C4_witness :
    List.countP (matchesKey "DB_HOST=")
      ["DB_CONNECTION=mysql", "DB_HOST=127.0.0.1", "DB_PORT=3306", "APP_KEY="] ≤ 1 ∧
    List.countP (matchesKey "DB_PORT=")
      ["DB_CONNECTION=mysql", "DB_HOST=127.0.0.1", "DB_PORT=3306", "APP_KEY="] ≤ 1 ∧
    rewriteEnv (rewriteEnv
        ["DB_CONNECTION=mysql", "DB_HOST=127.0.0.1", "DB_PORT=3306", "APP_KEY="]) =
      rewriteEnv ["DB_CONNECTION=mysql", "DB_HOST=127.0.0.1", "DB_PORT=3306", "APP_KEY="] :=
  ⟨by decide, by decide, C4_rewrite_idempotent _ (by decide) (by decide)⟩

/-- Claim C7: for every repository URL ending in a final path segment
`name.git` (a nonempty name with no further slash), the derived
working-directory name is exactly `name`: the last path segment is taken and
the `.git` extension is stripped. -/
theorem C7_repo_name (pre name : String) (h1 : name ≠ "")
    (h2 : name.data.contains '/' = false) :
    repoName (pre ++ "/" ++ name ++ ".git") = name := by
  have hnd : name.data ≠ [] := data_ne_nil name h1
  have hns : '/' ∉ name.data := by simpa using h2
  have hdata : (pre ++ "/" ++ name ++ ".git").data =
      pre.data ++ '/' :: (name.data ++ ['.', 'g', 'i', 't']) := by
    have l1 : ("/" : String).data = ['/'] := rfl
    have l2 : (".git" : String).data = ['.', 'g', 'i', 't'] := rfl
    simp [String.data_append, l1, l2]
  have hmemseg : ∀ a ∈ name.data ++ ['.', 'g', 'i', 't'], (!(a = '/')) = true := by
    intro a ha
    rcases List.mem_append.mp ha with ha | ha
    · have hne : a ≠ '/' := fun hEq => hns (hEq ▸ ha)
      simp [hne]
    · simp only [List.mem_cons, List.not_mem_nil, or_false] at ha
      rcases ha with rfl | rfl | rfl | rfl <;> decide
  have hseg : name.data ++ ['.', 'g', 'i', 't'] ≠ [] := by simp
  unfold repoName basename
  rw [hdata, basenameCore_append pre.data _ hmemseg hseg]
  have l2 : (".git" : String).data = ['.', 'g', 'i', 't'] := rfl
  rw [l2, stripExt_append _ _ hnd]

/-- Claim C7, witness at the spec scenario URL. -/
theorem C7_witness :
    "demo" ≠ "" ∧ "demo".data.contains '/' = false ∧
    repoName ("https://example.com" ++ "/" ++ "demo" ++ ".git") = "demo" :=
  ⟨by decide, by decide, C7_repo_name "https://example.com" "demo" (by decide) (by decide)⟩

/-- Claim C10, amended: a present, nonempty constraint with no digit and no
dot yields the empty image tag and the image name `php:-cli`; the default
`8.2` is applied when the constraint field is absent, and also when it is
present as the empty string, which is falsy in JS. -/
theorem C10_digit_free_constraint (s : String) (h1 : s ≠ "")
    (h2 : ∀ c ∈ s.data, isVersionChar c = false) :
    (detectTag (some s) = "" ∧ dockerImage (some s) = "php:-cli") ∧
    detectTag none = "8.2" ∧ detectTag (some "") = "8.2" := by
  have hfil : s.data.filter isVersionChar = [] :=
    List.filter_eq_nil_iff.mpr fun a ha => by simp [h2 a ha]
  have htag : detectTag (some s) = "" := by
    show String.mk (majorVersion
        (if s.data = [] then "8.2".data else s.data.filter isVersionChar)) = ""
    rw [if_neg (data_ne_nil s h1), hfil]
    decide
  refine ⟨⟨htag, ?_⟩, by decide, by decide⟩
  unfold dockerImage
  rw [htag]
  decide

/-- Claim C10, counterexample: the empty string is a present constraint with
no digit and no dot, yet the computed tag is the default `8.2` rather than
the empty string, because the empty string is falsy in JS. -/
theorem C10_counterexample :
    ¬ (∀ s : String, (∀ c ∈ s.data, isVersionChar c = false) →
        detectTag (some s) = "") := by
  intro h
  have h0 := h "" fun c hc => absurd hc (List.not_mem_nil c)
  exact absurd h0 (by decide)

/-- Claim C10, witness at the digit-free constraint of the claim. -/
theorem C10_witness :
    ("*" ≠ "" ∧ ∀ c ∈ "*".data, isVersionChar c = false) ∧
    ((detectTag (some "*") = "" ∧ dockerImage (some "*") = "php:-cli") ∧
      detectTag none = "8.2" ∧ detectTag (some "") = "8.2") :=
  ⟨⟨by decide, by decide⟩, C10_digit_free_constraint "*" (by decide) (by decide)⟩

/-- Claim C3: every run that reaches the migration step finishes the success
path even when the migration command fails: the failure is caught, the
transient composer.phar is still deleted afterwards, and the process exit
code is 0. -/
theorem C3_migration_failure_tolerated (e : Env)
    (hm : Cmd.migrate ∈ (run e).trace) (hf : e.migrateOk = false) :
    (run e).exitCode = 0 ∧ (run e).phar = false := by
  cases hu : e.url with
  | none =>
    rw [run_none e hu] at hm ⊢
    exact absurd hm (by simp [exitRes, st0])
  | some u =>
    rw [run_some e u hu] at hm ⊢
    by_cases hd : e.dockerExists = true
    · rw [if_pos hd] at hm ⊢
      exact good_stepClone e (st1 e) (by simp [st1, st0]) hm
    · rw [if_neg hd] at hm
      exact absurd hm (by simp [exitRes, st1, st0])

/-- Claim C3, witness: in the concrete successful world with a failing
migration the run still exits 0 and composer.phar is gone. -/
theorem C3_witness :
    Cmd.migrate ∈ (run demoEnv).trace ∧ demoEnv.migrateOk = false ∧
    ((run demoEnv).exitCode = 0 ∧ (run demoEnv).phar = false) :=
  ⟨by decide, rfl, C3_migration_failure_tolerated demoEnv (by decide) rfl⟩

/-- Claim C5: when the artisan entry point is absent, no key-generation and no
migration command is ever issued and the process exits 1; moreover every run
that actually reaches the artisan check (argument given, docker found, clone
succeeded or skipped, manifest present, download and install succeeded, and an
environment file obtained) lists the directory contents for diagnostics. -/
theorem C5_missing_artisan_aborts (e : Env) (h : e.artisanExists = false) :
    Cmd.keyGenerate ∉ (run e).trace ∧ Cmd.migrate ∉ (run e).trace ∧
    (run e).exitCode = 1 ∧
    ((∃ u, e.url = some u) → e.dockerExists = true →
      (e.repoDirExists = true ∨ e.cloneOk = true) → e.composerJsonExists = true →
      e.curlOk = true → e.installOk = true →
      (e.envFile.isSome = true ∨ e.cpOk = true) →
      Cmd.listRepoDir ∈ (run e).trace) := by
  cases hu : e.url with
  | none =>
    rw [run_none e hu]
    refine ⟨by simp [exitRes, st0], by simp [exitRes, st0], rfl, ?_⟩
    rintro ⟨u, hu2⟩
    cases hu2
  | some u =>
    rw [run_some e u hu]
    by_cases hd : e.dockerExists = true
    · rw [if_pos hd]
      obtain ⟨hx, hk, hm⟩ := absent_stepClone e (st1 e) h (by simp [st1, st0])
        (by simp [st1, st0])
      refine ⟨hk, hm, hx, ?_⟩
      intro _ _ hdir hj hcu hin hcp
      exact ld_stepClone e (st1 e) h hdir hj hcu hin hcp
    · rw [if_neg hd]
      refine ⟨by simp [exitRes, st1, st0], by simp [exitRes, st1, st0], rfl, ?_⟩
      intro _ hdocker
      exact absurd hdocker hd

/-- Claim C5, witness: the concrete reachable world without artisan. -/
theorem C5_witness :
    demoEnvNoArtisan.artisanExists = false ∧
    Cmd.keyGenerate ∉ (run demoEnvNoArtisan).trace ∧
    Cmd.migrate ∉ (run demoEnvNoArtisan).trace ∧
    (run demoEnvNoArtisan).exitCode = 1 ∧
    Cmd.listRepoDir ∈ (run demoEnvNoArtisan).trace :=
  ⟨rfl,
    (C5_missing_artisan_aborts demoEnvNoArtisan rfl).1,
    (C5_missing_artisan_aborts demoEnvNoArtisan rfl).2.1,
    (C5_missing_artisan_aborts demoEnvNoArtisan rfl).2.2.1,
    (C5_missing_artisan_aborts demoEnvNoArtisan rfl).2.2.2
      ⟨"https://example.com/demo.git", rfl⟩ rfl (Or.inl rfl) rfl rfl rfl (Or.inl rfl)⟩

/-- Claim C6, amended: the top-level failure handler deletes both
composer.phar and composer-setup.php, ignoring errors when they are absent;
the success path, by contrast, deletes only composer.phar (with an unguarded
delete) and leaves composer-setup.php untouched. -/
theorem C6_cleanup_behavior :
    (∀ s : St, (catchRes s).exitCode = 1 ∧ (catchRes s).phar = false ∧
      (catchRes s).setup = false) ∧
    (∀ e : Env, (run e).exitCode = 0 →
      (run e).phar = false ∧ (run e).setup = e.setupExists) := by
  constructor
  · intro s
    exact ⟨rfl, rfl, rfl⟩
  · intro e h
    cases hu : e.url with
    | none =>
      rw [run_none e hu] at h
      exact absurd h (by simp [exitRes, st0])
    | some u =>
      rw [run_some e u hu] at h ⊢
      by_cases hd : e.dockerExists = true
      · rw [if_pos hd] at h ⊢
        exact succ_stepClone e (st1 e) h
      · rw [if_neg hd] at h
        exact absurd h (by simp [exitRes, st1, st0])

/-- Claim C6, counterexample: a run that completes the success path (exit
code 0) with a composer-setup.php present leaves that file in place, so the
success path does not delete the transient installer helper. -/
theorem C6_counterexample :
    (run demoEnv).exitCode = 0 ∧ demoEnv.setupExists = true ∧
    (run demoEnv).setup = true := by
  decide

/-- Claim C6, witness for the amended success-path clause. -/
theorem C6_witness :
    (run demoEnv).exitCode = 0 ∧
    ((run demoEnv).phar = false ∧ (run demoEnv).setup = demoEnv.setupExists) :=
  ⟨by decide, C6_cleanup_behavior.2 demoEnv (by decide)⟩

/-- Claim C8: when the derived working directory already exists, the clone
command is never issued: re-running setup does not fetch again, and nothing
checks that the directory holds the expected project. -/
theorem C8_skip_clone (e : Env) (h : e.repoDirExists = true) :
    Cmd.gitClone ∉ (run e).trace := by
  cases hu : e.url with
  | none =>
    rw [run_none e hu]
    simp [exitRes, st0]
  | some u =>
    rw [run_some e u hu]
    by_cases hd : e.dockerExists = true
    · rw [if_pos hd]
      unfold stepClone
      rw [if_pos h]
      intro hm
      rcases mem_trace_stepManifest _ _ _ hm with h1 | h1
      · exact absurd h1 (by simp [st1, st0])
      · exact absurd h1 (by decide)
    · rw [if_neg hd]
      simp [exitRes, st1, st0]

/-- Claim C8, witness: the concrete world with an existing directory. -/
theorem C8_witness :
    demoEnv.repoDirExists = true ∧ Cmd.gitClone ∉ (run demoEnv).trace :=
  ⟨rfl, C8_skip_clone demoEnv rfl⟩

/-- Claim C9: when the embedded database file already exists, the empty-file
write is skipped and the file's contents survive the whole run unchanged. -/
theorem C9_sqlite_preserved (e : Env) (c : String) (h : e.sqliteFile = some c) :
    (run e).sqliteFile = some c := by
  cases hu : e.url with
  | none =>
    rw [run_none e hu]
    exact h
  | some u =>
    rw [run_some e u hu]
    by_cases hd : e.dockerExists = true
    · rw [if_pos hd]
      exact sql_stepClone e (st1 e) c h
    · rw [if_neg hd]
      exact h

/-- Claim C9, witness: a concrete pre-existing database file. -/
theorem C9_witness :
    demoEnv.sqliteFile = some "" ∧ (run demoEnv).sqliteFile = some "" :=
  ⟨rfl, C9_sqlite_preserved demoEnv "" rfl⟩

end Laraset

